import Mathlib

/-!
Shallow embedding of the leave-tracker core (src/app/supabase_client.py and
src/app/app.py): the leave-request store, the status-update operation, the
balance ledger and the daily announcement selector, modelled as pure
functions over explicit list-valued table states.  Database tables become
Lean lists of records; `datetime.now()` becomes an explicit timestamp
parameter; Supabase `insert`/`update`/`select` calls become list append,
map and filter, faithful to the Python closures they embed.
-/

/-- A row of the `leave_requests` table, columns as in the CREATE TABLE
statement of `create_tables_individually` (src/app/supabase_client.py). -/
structure LeaveRequest where
  id : Nat
  user_id : String
  user_name : String
  start_date : String
  end_date : String
  reason : String
  leave_type : String
  status : String
  approved_by : Option String
  created_at : String
  updated_at : String
deriving DecidableEq

/-- A row of the `user_leave_balances` table, columns as in the CREATE TABLE
statement of `create_tables_individually`: the four category columns carry
the table defaults vacation=20, sick=10, personal=5, other=3 on insert. -/
structure BalanceRecord where
  user_id : String
  vacation : Int
  sick : Int
  personal : Int
  other : Int
  created_at : String
  updated_at : String
deriving DecidableEq

/-- The four balance columns of `user_leave_balances`; `update_user_leave_balance`
is only ever invoked with one of these as its `leave_type` argument (the
Slack modal offers exactly these four values). -/
inductive LeaveCat
  | vacation
  | sick
  | personal
  | other
deriving DecidableEq

/-- Read the column named by the category (Python: `current.get(leave_type, 0)`,
where `leave_type` is one of the four column names). -/
def BalanceRecord.getCat (b : BalanceRecord) : LeaveCat → Int
  | .vacation => b.vacation
  | .sick => b.sick
  | .personal => b.personal
  | .other => b.other

/-- Write the column named by the category (Python: `{leave_type: v}` in an
insert or update payload). -/
def BalanceRecord.setCat (b : BalanceRecord) : LeaveCat → Int → BalanceRecord
  | .vacation, v => { b with vacation := v }
  | .sick, v => { b with sick := v }
  | .personal, v => { b with personal := v }
  | .other, v => { b with other := v }

/-- A fresh `user_leave_balances` row with every column at its table default
(vacation=20, sick=10, personal=5, other=3, timestamps NOW()). -/
def defaultBalanceRow (uid now : String) : BalanceRecord :=
  { user_id := uid, vacation := 20, sick := 10, personal := 5, other := 3,
    created_at := now, updated_at := now }

/-- Python truthiness of an optional string: `if approved_by:` is false for
`None` and for the empty string. -/
def pyTruthyStr : Option String → Bool
  | none => false
  | some s => !s.isEmpty

/-- `create_leave_request` (src/app/supabase_client.py, lines 104-120): insert
a new row with `status='pending'`; `id` is SERIAL (passed in here), the
`updated_at` column takes its table default NOW().  Returns the inserted
row (`response.data[0]`) and the new table state.  No validation of any
field is performed. -/
def create_leave_request (db : List LeaveRequest) (newId : Nat)
    (uid uname sdate edate reason ltype now : String) :
    LeaveRequest × List LeaveRequest :=
  let row : LeaveRequest :=
    { id := newId, user_id := uid, user_name := uname, start_date := sdate,
      end_date := edate, reason := reason, leave_type := ltype,
      status := "pending", approved_by := none,
      created_at := now, updated_at := now }
  (row, db ++ [row])

/-- The per-row effect of `update_leave_request_status`: the update payload
sets `status` and `updated_at`, and also `approved_by` when the argument is
truthy (`if approved_by:`). -/
def applyStatusUpdate (r : LeaveRequest) (st : String) (ab : Option String)
    (now : String) : LeaveRequest :=
  if pyTruthyStr ab then
    { r with status := st, updated_at := now, approved_by := ab }
  else
    { r with status := st, updated_at := now }

/-- `update_leave_request_status` (src/app/supabase_client.py, lines 130-143):
apply the update payload to every row with matching `id` (the primary key,
so at most one), unconditionally — the current status is never consulted.
Returns `response.data[0]` (the first updated row, `none` when no row
matched) and the new table state. -/
def update_leave_request_status (db : List LeaveRequest) (rid : Nat)
    (st : String) (ab : Option String) (now : String) :
    Option LeaveRequest × List LeaveRequest :=
  let db2 := db.map (fun r => if r.id = rid then applyStatusUpdate r st ab now else r)
  ((db2.filter (fun r => r.id = rid)).head?, db2)

/-- `get_user_leave_balance` (src/app/supabase_client.py, lines 145-151):
select the row with matching `user_id`; `response.data[0] if response.data
else None`. -/
def get_user_leave_balance (db : List BalanceRecord) (uid : String) :
    Option BalanceRecord :=
  (db.filter (fun b => b.user_id = uid)).head?

/-- `update_user_leave_balance` (src/app/supabase_client.py, lines 153-174):
read the current row; when it exists, store `current.get(leave_type, 0) + days`
with no clamping; when it does not, insert a fresh row whose adjusted column
is `max(0, days)` and whose remaining columns take the table defaults.
Returns `response.data[0]` and the new table state. -/
def update_user_leave_balance (db : List BalanceRecord) (uid : String)
    (cat : LeaveCat) (days : Int) (now : String) :
    Option BalanceRecord × List BalanceRecord :=
  match get_user_leave_balance db uid with
  | some current =>
    let nb := current.getCat cat + days
    let db2 := db.map (fun b =>
      if b.user_id = uid then { b.setCat cat nb with updated_at := now } else b)
    ((db2.filter (fun b => b.user_id = uid)).head?, db2)
  | none =>
    let row := (defaultBalanceRow uid now).setCat cat (max 0 days)
    (some row, db ++ [row])

/-- `get_todays_leaves` (src/app/supabase_client.py, lines 176-183): select
the rows with `start_date` equal to today and `status = 'approved'`;
`date.today()` becomes the explicit `today` parameter. -/
def get_todays_leaves (db : List LeaveRequest) (today : String) :
    List LeaveRequest :=
  db.filter (fun r => r.start_date = today ∧ r.status = "approved")

/-- The sleep issued after a failed attempt: `time.sleep(self.retry_delay *
(attempt + 1))` (src/app/supabase_client.py, line 26). -/
def retrySleep (retry_delay attempt : Nat) : Nat :=
  retry_delay * (attempt + 1)

/-- The loop body of `execute_with_retry` (src/app/supabase_client.py, lines
17-26): `attempt` is the current loop index, the second argument the number
of remaining iterations of `range(max_retries)`.  Returns the list of
attempt indices actually tried together with the outcome: `some (.ok v)`
when an attempt succeeds, `some (.error e)` when the final attempt
(`attempt == max_retries - 1`, i.e. no iteration remains after this one)
fails and its exception is re-raised, `none` when the loop runs zero
iterations and the Python function falls through returning None. -/
def retryAux {E A : Type} (op : Nat → Except E A) :
    Nat → Nat → List Nat × Option (Except E A)
  | _, 0 => ([], none)
  | attempt, r + 1 =>
    match op attempt with
    | .ok v => ([attempt], some (.ok v))
    | .error e =>
      if r = 0 then ([attempt], some (.error e))
      else
        let rest := retryAux op (attempt + 1) r
        (attempt :: rest.1, rest.2)

/-- `execute_with_retry` (src/app/supabase_client.py, lines 17-26): run the
operation for attempt indices 0, 1, ..., max_retries - 1, returning on the
first success and re-raising the exception of the last attempt. -/
def execute_with_retry {E A : Type} (max_retries : Nat)
    (op : Nat → Except E A) : List Nat × Option (Except E A) :=
  retryAux op 0 max_retries

/-! Helper lemmas about the record operations. -/

theorem getCat_setCat_same (b : BalanceRecord) (c : LeaveCat) (v : Int) :
    (b.setCat c v).getCat c = v := by
  cases c <;> rfl

theorem getCat_setCat_ne (b : BalanceRecord) (c c2 : LeaveCat) (v : Int)
    (h : c2 ≠ c) : (b.setCat c v).getCat c2 = b.getCat c2 := by
  cases c <;> cases c2 <;> first | rfl | exact absurd rfl h

theorem user_id_setCat (b : BalanceRecord) (c : LeaveCat) (v : Int) :
    (b.setCat c v).user_id = b.user_id := by
  cases c <;> rfl

theorem getCat_touch (b : BalanceRecord) (c : LeaveCat) (now : String) :
    ({ b with updated_at := now }).getCat c = b.getCat c := by
  cases c <;> rfl

/-- Filtering a mapped balance table by `user_id` commutes with the map when
the per-row function preserves `user_id`. -/
theorem filter_map_user (db : List BalanceRecord) (uid : String)
    (f : BalanceRecord → BalanceRecord)
    (hf : ∀ b, (f b).user_id = b.user_id) :
    (db.map f).filter (fun b => b.user_id = uid) =
      (db.filter (fun b => b.user_id = uid)).map f := by
  induction db with
  | nil => rfl
  | cons b t ih =>
    simp only [List.map_cons, List.filter_cons, hf b]
    by_cases h : b.user_id = uid
    · simp [h, ih]
    · simp [h, ih]

/-- The row returned by `get_user_leave_balance` carries the queried
`user_id` (it is the head of the rows selected by `.eq('user_id', uid)`). -/
theorem get_balance_user_id (db : List BalanceRecord) (uid : String)
    (b : BalanceRecord) (h : get_user_leave_balance db uid = some b) :
    b.user_id = uid := by
  unfold get_user_leave_balance at h
  have hmem : b ∈ db.filter (fun b => b.user_id = uid) := by
    cases hl : db.filter (fun b => b.user_id = uid) with
    | nil => rw [hl] at h; simp at h
    | cons x t =>
      rw [hl] at h
      simp only [List.head?_cons, Option.some.injEq] at h
      simp [h]
  have := List.mem_filter.mp hmem
  simpa using this.2

/-- Reading back the balance row after the update path of
`update_user_leave_balance`: when a row exists, the stored row is the old
row with the adjusted column replaced by the unclamped sum. -/
theorem get_after_balance_update (db : List BalanceRecord) (uid : String)
    (cat : LeaveCat) (days : Int) (now : String) (b : BalanceRecord)
    (h : get_user_leave_balance db uid = some b) :
    get_user_leave_balance (update_user_leave_balance db uid cat days now).2 uid =
      some { b.setCat cat (b.getCat cat + days) with updated_at := now } := by
  have hb : b.user_id = uid := get_balance_user_id db uid b h
  unfold update_user_leave_balance
  rw [h]
  simp only [get_user_leave_balance]
  rw [filter_map_user]
  · rw [get_user_leave_balance] at h
    rw [List.head?_map, h]
    simp only [Option.map_some']
    rw [if_pos hb]
  · intro b2
    by_cases hb2 : b2.user_id = uid
    · simp [hb2, user_id_setCat]
    · simp [hb2]

/-- Field-by-field effect of the status-update payload on a single row: it
touches exactly `status`, `updated_at` and (when truthy) `approved_by`. -/
theorem applyStatusUpdate_fields (r : LeaveRequest) (st : String)
    (ab : Option String) (now : String) :
    (applyStatusUpdate r st ab now).id = r.id ∧
    (applyStatusUpdate r st ab now).user_id = r.user_id ∧
    (applyStatusUpdate r st ab now).user_name = r.user_name ∧
    (applyStatusUpdate r st ab now).start_date = r.start_date ∧
    (applyStatusUpdate r st ab now).end_date = r.end_date ∧
    (applyStatusUpdate r st ab now).reason = r.reason ∧
    (applyStatusUpdate r st ab now).leave_type = r.leave_type ∧
    (applyStatusUpdate r st ab now).created_at = r.created_at ∧
    (applyStatusUpdate r st ab now).status = st ∧
    (applyStatusUpdate r st ab now).updated_at = now := by
  unfold applyStatusUpdate
  split <;> simp

/-- Each run of the retry loop makes no more attempts than it has remaining
iterations. -/
theorem retryAux_length_le {E A : Type} (op : Nat → Except E A)
    (attempt r : Nat) : (retryAux op attempt r).1.length ≤ r := by
  induction r generalizing attempt with
  | zero => simp [retryAux]
  | succ n ih =>
    unfold retryAux
    cases op attempt with
    | ok v => simp
    | error e =>
      by_cases hn : n = 0
      · simp [hn]
      · simp only [hn, if_false, List.length_cons]
        exact Nat.succ_le_succ (ih (attempt + 1))

/-! Concrete sample rows used by counterexamples and witnesses. -/

/-- A leave request already decided (terminal state `approved`). -/
def approvedReq : LeaveRequest :=
  { id := 1, user_id := "U1", user_name := "Alice",
    start_date := "2024-03-01", end_date := "2024-03-02", reason := "trip",
    leave_type := "vacation", status := "approved", approved_by := some "A1",
    created_at := "t0", updated_at := "t1" }

/-- A second, still pending leave request with a different id. -/
def pendingReq : LeaveRequest :=
  { id := 2, user_id := "U2", user_name := "Bob",
    start_date := "2024-03-05", end_date := "2024-03-06", reason := "rest",
    leave_type := "sick", status := "pending", approved_by := none,
    created_at := "t0", updated_at := "t0" }

/-- A balance row with only 2 vacation days left. -/
def lowVacBal : BalanceRecord :=
  { user_id := "U1", vacation := 2, sick := 10, personal := 5, other := 3,
    created_at := "t0", updated_at := "t0" }

/-! Claim theorems. -/

/-- C1 (counterexample): deciding an already-approved request does not fail
and does not leave the record unchanged — `update_leave_request_status`
happily rewrites the terminal `approved` status to `rejected`. -/
theorem C1_approved_request_overwritten_cex :
    approvedReq.status = "approved" ∧
    (update_leave_request_status [approvedReq] 1 "rejected" (some "A2") "t2").2 ≠
      [approvedReq] ∧
    ((update_leave_request_status [approvedReq] 1 "rejected" (some "A2") "t2").1.map
      (·.status)) = some "rejected" := by
  decide

/-- C1 (amended): `update_leave_request_status` consults the current status
nowhere: for any stored request with the targeted id — whatever its current
status, including the terminal ones — the update is applied and the stored
status becomes the requested one.  There is no `InvalidState` failure and a
decided request is silently re-decided. -/
theorem C1_update_ignores_current_status (db : List LeaveRequest) (rid : Nat)
    (st : String) (ab : Option String) (now : String) (r : LeaveRequest)
    (hmem : r ∈ db) (hid : r.id = rid) :
    applyStatusUpdate r st ab now ∈
      (update_leave_request_status db rid st ab now).2 ∧
    (applyStatusUpdate r st ab now).status = st := by
  constructor
  · have h2 := List.mem_map_of_mem
      (fun q => if q.id = rid then applyStatusUpdate q st ab now else q) hmem
    dsimp only at h2
    rw [if_pos hid] at h2
    exact h2
  · unfold applyStatusUpdate
    split <;> rfl

/-- C1 witness: the amended theorem applied to the sample approved request. -/
theorem C1_update_ignores_current_status_witness :
    approvedReq ∈ [approvedReq] ∧ approvedReq.id = 1 ∧
    (applyStatusUpdate approvedReq "rejected" (some "A2") "t2" ∈
      (update_leave_request_status [approvedReq] 1 "rejected" (some "A2") "t2").2 ∧
    (applyStatusUpdate approvedReq "rejected" (some "A2") "t2").status =
      "rejected") :=
  ⟨List.mem_singleton.mpr rfl, rfl,
    C1_update_ignores_current_status [approvedReq] 1 "rejected" (some "A2") "t2"
      approvedReq (List.mem_singleton.mpr rfl) rfl⟩

/-- C3 (counterexample): `create_leave_request` performs no leave-type
validation: a value far outside the enumeration is accepted, the call
succeeds with status `pending`, and the record is persisted — it does not
fail with `InvalidArgument` and it does not leave the table empty. -/
theorem C3_invalid_type_accepted_cex :
    (create_leave_request [] 7 "U1" "Alice" "2024-03-01" "2024-03-02" "trip"
      "bogus" "t0").1.status = "pending" ∧
    (create_leave_request [] 7 "U1" "Alice" "2024-03-01" "2024-03-02" "trip"
      "bogus" "t0").1.leave_type = "bogus" ∧
    (create_leave_request [] 7 "U1" "Alice" "2024-03-01" "2024-03-02" "trip"
      "bogus" "t0").2 ≠ [] := by
  decide

/-- C3 (amended): for every input — the leave type being any string
whatsoever, inside or outside the enumeration — `create_leave_request`
succeeds, returns a record with status `pending`, and appends exactly that
record to the store; no validation or failure path exists. -/
theorem C3_create_always_pending (db : List LeaveRequest) (newId : Nat)
    (uid uname sdate edate reason ltype now : String) :
    (create_leave_request db newId uid uname sdate edate reason ltype now).1.status =
      "pending" ∧
    (create_leave_request db newId uid uname sdate edate reason ltype now).1.leave_type =
      ltype ∧
    (create_leave_request db newId uid uname sdate edate reason ltype now).2 =
      db ++ [(create_leave_request db newId uid uname sdate edate reason ltype now).1] :=
  ⟨rfl, rfl, rfl⟩

/-- C4: on the record-creation path (no prior balance row), the adjusted
category of the inserted row is `max(0, delta)`, so a negative delta is
clamped to zero. -/
theorem C4_create_path_clamps (db : List BalanceRecord) (uid : String)
    (cat : LeaveCat) (days : Int) (now : String)
    (h : get_user_leave_balance db uid = none) :
    ∃ row, (update_user_leave_balance db uid cat days now).1 = some row ∧
      (update_user_leave_balance db uid cat days now).2 = db ++ [row] ∧
      row.getCat cat = max 0 days := by
  refine ⟨(defaultBalanceRow uid now).setCat cat (max 0 days), ?_, ?_, ?_⟩
  · unfold update_user_leave_balance
    rw [h]
  · unfold update_user_leave_balance
    rw [h]
  · exact getCat_setCat_same _ _ _

/-- C4 witness: `adjust(U9, sick, -3)` for a user with no record stores
`sick = max(0, -3) = 0`. -/
theorem C4_create_path_clamps_witness :
    get_user_leave_balance ([] : List BalanceRecord) "U9" = none ∧
    (∃ row, (update_user_leave_balance [] "U9" LeaveCat.sick (-3) "t0").1 =
        some row ∧
      (update_user_leave_balance [] "U9" LeaveCat.sick (-3) "t0").2 =
        [] ++ [row] ∧
      row.getCat LeaveCat.sick = max 0 (-3)) :=
  ⟨rfl, C4_create_path_clamps [] "U9" LeaveCat.sick (-3) "t0" rfl⟩

/-- C2 (counterexample): on the record-update path no clamping happens: a
user holding 2 vacation days adjusted by -5 ends up with a stored vacation
balance of -3, a negative value. -/
theorem C2_update_path_negative_cex :
    (get_user_leave_balance
      (update_user_leave_balance [lowVacBal] "U1" LeaveCat.vacation (-5) "t1").2
      "U1").map (·.vacation) = some (-3) ∧ (-3 : Int) < 0 := by
  decide

/-- C2 (amended): the non-negativity clamp applies only on the
record-creation path, where the inserted value is `max(0, delta)`; on the
record-update path the raw sum `current + delta` is stored with no clamp,
so it can be negative. -/
theorem C2_clamp_only_on_creation (db : List BalanceRecord) (uid : String)
    (cat : LeaveCat) (days : Int) (now : String) :
    (get_user_leave_balance db uid = none →
      ∃ row, (update_user_leave_balance db uid cat days now).1 = some row ∧
        row.getCat cat = max 0 days ∧ 0 ≤ row.getCat cat) ∧
    (∀ b, get_user_leave_balance db uid = some b →
      ∃ row, get_user_leave_balance
          (update_user_leave_balance db uid cat days now).2 uid = some row ∧
        row.getCat cat = b.getCat cat + days) := by
  constructor
  · intro h
    refine ⟨(defaultBalanceRow uid now).setCat cat (max 0 days), ?_, ?_, ?_⟩
    · unfold update_user_leave_balance
      rw [h]
    · exact getCat_setCat_same _ _ _
    · rw [getCat_setCat_same]
      exact le_max_left 0 days
  · intro b h
    refine ⟨{ b.setCat cat (b.getCat cat + days) with updated_at := now },
      get_after_balance_update db uid cat days now b h, ?_⟩
    rw [getCat_touch, getCat_setCat_same]

/-- C2 witness: the update-path conjunct of the amended theorem applied to
the sample balance row. -/
theorem C2_clamp_only_on_creation_witness :
    ∃ row, get_user_leave_balance
        (update_user_leave_balance [lowVacBal] "U1" LeaveCat.vacation (-5)
          "t1").2 "U1" = some row ∧
      row.getCat LeaveCat.vacation = lowVacBal.getCat LeaveCat.vacation + (-5) :=
  (C2_clamp_only_on_creation [lowVacBal] "U1" LeaveCat.vacation (-5) "t1").2
    lowVacBal rfl

/-- C5 (counterexample): for a user with no prior balance record the
round-trip fails: before the `+5` and `-5` vacation adjustments the balance
read returns nothing at all, and after them it returns a record with
vacation 0 — not the absent state it started from, and not the default 20 a
fresh row would otherwise carry. -/
theorem C5_roundtrip_fails_fresh_user_cex :
    get_user_leave_balance ([] : List BalanceRecord) "U1" = none ∧
    (get_user_leave_balance
      (update_user_leave_balance
        (update_user_leave_balance ([] : List BalanceRecord) "U1"
          LeaveCat.vacation 5 "t1").2
        "U1" LeaveCat.vacation (-5) "t2").2 "U1").map (·.vacation) = some 0 ∧
    (defaultBalanceRow "U1" "t1").vacation = 20 := by
  decide

/-- C5 (amended): for every user whose balance record already exists,
adjusting vacation by `+d` and then by `-d` returns the stored vacation
balance to exactly its original value (the update path stores the raw sum,
so the two deltas cancel). -/
theorem C5_roundtrip_existing_record (db : List BalanceRecord) (uid : String)
    (d : Int) (now1 now2 : String) (b : BalanceRecord)
    (h : get_user_leave_balance db uid = some b) :
    (get_user_leave_balance
      (update_user_leave_balance
        (update_user_leave_balance db uid LeaveCat.vacation d now1).2
        uid LeaveCat.vacation (-d) now2).2 uid).map (·.vacation) =
      some b.vacation := by
  have h1 := get_after_balance_update db uid LeaveCat.vacation d now1 b h
  have h2 := get_after_balance_update _ uid LeaveCat.vacation (-d) now2 _ h1
  rw [h2]
  show some (b.vacation + d + -d) = some b.vacation
  congr 1
  omega

/-- C5 witness: the amended round-trip applied to the sample row with 2
vacation days, at delta 5. -/
theorem C5_roundtrip_existing_record_witness :
    get_user_leave_balance [lowVacBal] "U1" = some lowVacBal ∧
    (get_user_leave_balance
      (update_user_leave_balance
        (update_user_leave_balance [lowVacBal] "U1" LeaveCat.vacation 5 "t1").2
        "U1" LeaveCat.vacation (-5) "t2").2 "U1").map (·.vacation) =
      some lowVacBal.vacation :=
  ⟨rfl, C5_roundtrip_existing_record [lowVacBal] "U1" 5 "t1" "t2" lowVacBal rfl⟩

/-- C6: the daily announcement selector returns exactly the stored requests
whose status is `approved` and whose start date equals the queried date:
membership in its result is equivalent to membership in the store together
with those two conditions, so pending and rejected requests are excluded,
as is any approved request merely spanning the date without starting on it. -/
theorem C6_selector_exact (db : List LeaveRequest) (today : String)
    (r : LeaveRequest) :
    r ∈ get_todays_leaves db today ↔
      r ∈ db ∧ r.status = "approved" ∧ r.start_date = today := by
  unfold get_todays_leaves
  rw [List.mem_filter]
  simp only [decide_eq_true_eq]
  tauto

/-- C7 (counterexample): the balance read for a user with no stored record
returns `none` (not found) — not a record populated with the default
entitlements. -/
theorem C7_missing_returns_none_cex :
    get_user_leave_balance ([] : List BalanceRecord) "U1" = none := rfl

/-- C7 (amended): `get_user_leave_balance` returns `none` whenever no row
carries the queried user id; the default entitlements vacation=20, sick=10,
personal=5, other=3 exist only as the table defaults applied when a row is
inserted, never as the result of a read. -/
theorem C7_get_missing_is_none (db : List BalanceRecord) (uid now : String)
    (h : ∀ b ∈ db, b.user_id ≠ uid) :
    get_user_leave_balance db uid = none ∧
    (defaultBalanceRow uid now).vacation = 20 ∧
    (defaultBalanceRow uid now).sick = 10 ∧
    (defaultBalanceRow uid now).personal = 5 ∧
    (defaultBalanceRow uid now).other = 3 := by
  refine ⟨?_, rfl, rfl, rfl, rfl⟩
  unfold get_user_leave_balance
  have hnil : db.filter (fun b => b.user_id = uid) = [] := by
    rw [List.filter_eq_nil_iff]
    intro b hb
    simpa using h b hb
  rw [hnil]
  rfl

/-- C7 witness: the amended theorem applied to the empty table. -/
theorem C7_get_missing_is_none_witness :
    (∀ b ∈ ([] : List BalanceRecord), b.user_id ≠ "U1") ∧
    (get_user_leave_balance ([] : List BalanceRecord) "U1" = none ∧
     (defaultBalanceRow "U1" "t0").vacation = 20 ∧
     (defaultBalanceRow "U1" "t0").sick = 10 ∧
     (defaultBalanceRow "U1" "t0").personal = 5 ∧
     (defaultBalanceRow "U1" "t0").other = 3) :=
  ⟨by simp, C7_get_missing_is_none [] "U1" "t0" (by simp)⟩

/-- C8: `execute_with_retry` with the configured `max_retries = 3` and
`retry_delay = 1` makes at most 3 attempts whatever the operation does;
when every attempt fails it tries exactly attempts 0, 1, 2 and surfaces the
final attempt's error to the caller (re-raised, neither swallowed nor
retried further); and the sleep before retry `a + 1` exceeds the sleep
before retry `a` by the constant `retry_delay`, a linear backoff. -/
theorem C8_retry_bounded_and_surfaces {E A : Type} (op : Nat → Except E A)
    (errs : Nat → E) (hfail : ∀ i, op i = .error (errs i)) :
    (∀ op2 : Nat → Except E A, (execute_with_retry 3 op2).1.length ≤ 3) ∧
    (execute_with_retry 3 op).1 = [0, 1, 2] ∧
    (execute_with_retry 3 op).2 = some (.error (errs 2)) ∧
    (∀ a, retrySleep 1 (a + 1) = retrySleep 1 a + 1) := by
  refine ⟨fun op2 => retryAux_length_le op2 0 3, ?_, ?_, fun a => ?_⟩
  · unfold execute_with_retry
    simp [retryAux, hfail]
  · unfold execute_with_retry
    simp [retryAux, hfail]
  · unfold retrySleep
    omega

/-- C8 witness: the theorem applied to an operation that always fails with
the same storage error. -/
theorem C8_retry_bounded_and_surfaces_witness :
    (∀ i, (fun _ : Nat => (Except.error "db down" : Except String Unit)) i =
      .error ((fun _ : Nat => "db down") i)) ∧
    ((∀ op2 : Nat → Except String Unit,
        (execute_with_retry 3 op2).1.length ≤ 3) ∧
     (execute_with_retry 3
        (fun _ : Nat => (Except.error "db down" : Except String Unit))).1 =
          [0, 1, 2] ∧
     (execute_with_retry 3
        (fun _ : Nat => (Except.error "db down" : Except String Unit))).2 =
          some (.error "db down") ∧
     (∀ a, retrySleep 1 (a + 1) = retrySleep 1 a + 1)) :=
  ⟨fun _ => rfl,
    C8_retry_bounded_and_surfaces
      (fun _ => (Except.error "db down" : Except String Unit))
      (fun _ => "db down") (fun _ => rfl)⟩

/-- C9: `update_leave_request_status` preserves the table's length; rows
whose id differs from the target are unchanged; and the row with the target
id keeps its id, user id, user name, dates, reason, leave type and creation
timestamp — only status, approved-by and updated-at can change. -/
theorem C9_update_status_frame (db : List LeaveRequest) (rid : Nat)
    (st : String) (ab : Option String) (now : String) (i : Nat)
    (h : i < db.length)
    (h2 : i < (update_leave_request_status db rid st ab now).2.length) :
    (update_leave_request_status db rid st ab now).2.length = db.length ∧
    ((db.get ⟨i, h⟩).id ≠ rid →
      (update_leave_request_status db rid st ab now).2.get ⟨i, h2⟩ =
        db.get ⟨i, h⟩) ∧
    ((db.get ⟨i, h⟩).id = rid →
      (((update_leave_request_status db rid st ab now).2.get ⟨i, h2⟩).id =
          (db.get ⟨i, h⟩).id ∧
       ((update_leave_request_status db rid st ab now).2.get ⟨i, h2⟩).user_id =
          (db.get ⟨i, h⟩).user_id ∧
       ((update_leave_request_status db rid st ab now).2.get ⟨i, h2⟩).user_name =
          (db.get ⟨i, h⟩).user_name ∧
       ((update_leave_request_status db rid st ab now).2.get ⟨i, h2⟩).start_date =
          (db.get ⟨i, h⟩).start_date ∧
       ((update_leave_request_status db rid st ab now).2.get ⟨i, h2⟩).end_date =
          (db.get ⟨i, h⟩).end_date ∧
       ((update_leave_request_status db rid st ab now).2.get ⟨i, h2⟩).reason =
          (db.get ⟨i, h⟩).reason ∧
       ((update_leave_request_status db rid st ab now).2.get ⟨i, h2⟩).leave_type =
          (db.get ⟨i, h⟩).leave_type ∧
       ((update_leave_request_status db rid st ab now).2.get ⟨i, h2⟩).created_at =
          (db.get ⟨i, h⟩).created_at ∧
       ((update_leave_request_status db rid st ab now).2.get ⟨i, h2⟩).status =
          st)) := by
  have hget : (update_leave_request_status db rid st ab now).2.get ⟨i, h2⟩ =
      if (db.get ⟨i, h⟩).id = rid then
        applyStatusUpdate (db.get ⟨i, h⟩) st ab now
      else db.get ⟨i, h⟩ := by
    simp only [update_leave_request_status, List.get_eq_getElem,
      List.getElem_map]
  refine ⟨by simp [update_leave_request_status], ?_, ?_⟩
  · intro hne
    rw [hget, if_neg hne]
  · intro heq
    rw [hget, if_pos heq]
    have hf := applyStatusUpdate_fields (db.get ⟨i, h⟩) st ab now
    tauto

/-- C9 witness: the frame theorem applied at index 0 of a two-row table
whose first row is the targeted request. -/
theorem C9_update_status_frame_witness :
    0 < [approvedReq, pendingReq].length ∧
    0 < (update_leave_request_status [approvedReq, pendingReq] 1 "rejected"
      (some "A2") "t2").2.length ∧
    ((update_leave_request_status [approvedReq, pendingReq] 1 "rejected"
        (some "A2") "t2").2.length = [approvedReq, pendingReq].length ∧
     (([approvedReq, pendingReq].get ⟨0, by decide⟩).id ≠ 1 →
       (update_leave_request_status [approvedReq, pendingReq] 1 "rejected"
         (some "A2") "t2").2.get ⟨0, by decide⟩ =
         [approvedReq, pendingReq].get ⟨0, by decide⟩) ∧
     (([approvedReq, pendingReq].get ⟨0, by decide⟩).id = 1 →
       (((update_leave_request_status [approvedReq, pendingReq] 1 "rejected"
           (some "A2") "t2").2.get ⟨0, by decide⟩).id =
           ([approvedReq, pendingReq].get ⟨0, by decide⟩).id ∧
        ((update_leave_request_status [approvedReq, pendingReq] 1 "rejected"
           (some "A2") "t2").2.get ⟨0, by decide⟩).user_id =
           ([approvedReq, pendingReq].get ⟨0, by decide⟩).user_id ∧
        ((update_leave_request_status [approvedReq, pendingReq] 1 "rejected"
           (some "A2") "t2").2.get ⟨0, by decide⟩).user_name =
           ([approvedReq, pendingReq].get ⟨0, by decide⟩).user_name ∧
        ((update_leave_request_status [approvedReq, pendingReq] 1 "rejected"
           (some "A2") "t2").2.get ⟨0, by decide⟩).start_date =
           ([approvedReq, pendingReq].get ⟨0, by decide⟩).start_date ∧
        ((update_leave_request_status [approvedReq, pendingReq] 1 "rejected"
           (some "A2") "t2").2.get ⟨0, by decide⟩).end_date =
           ([approvedReq, pendingReq].get ⟨0, by decide⟩).end_date ∧
        ((update_leave_request_status [approvedReq, pendingReq] 1 "rejected"
           (some "A2") "t2").2.get ⟨0, by decide⟩).reason =
           ([approvedReq, pendingReq].get ⟨0, by decide⟩).reason ∧
        ((update_leave_request_status [approvedReq, pendingReq] 1 "rejected"
           (some "A2") "t2").2.get ⟨0, by decide⟩).leave_type =
           ([approvedReq, pendingReq].get ⟨0, by decide⟩).leave_type ∧
        ((update_leave_request_status [approvedReq, pendingReq] 1 "rejected"
           (some "A2") "t2").2.get ⟨0, by decide⟩).created_at =
           ([approvedReq, pendingReq].get ⟨0, by decide⟩).created_at ∧
        ((update_leave_request_status [approvedReq, pendingReq] 1 "rejected"
           (some "A2") "t2").2.get ⟨0, by decide⟩).status = "rejected"))) :=
  ⟨by decide, by decide,
    C9_update_status_frame [approvedReq, pendingReq] 1 "rejected" (some "A2")
      "t2" 0 (by decide) (by decide)⟩

/-- C10: on the record-creation path the inserted row's adjusted category is
`max(0, delta)` — for a non-negative delta that is the delta itself, never
the category's default entitlement plus the delta — while every other
category receives its table default. -/
theorem C10_create_ignores_default_for_adjusted (db : List BalanceRecord)
    (uid : String) (cat : LeaveCat) (days : Int) (now : String)
    (h : get_user_leave_balance db uid = none) :
    ∃ row, (update_user_leave_balance db uid cat days now).1 = some row ∧
      (update_user_leave_balance db uid cat days now).2 = db ++ [row] ∧
      row.getCat cat = max 0 days ∧
      (∀ c, c ≠ cat → row.getCat c = (defaultBalanceRow uid now).getCat c) ∧
      (0 ≤ days →
        row.getCat cat ≠ (defaultBalanceRow uid now).getCat cat + days) := by
  refine ⟨(defaultBalanceRow uid now).setCat cat (max 0 days), ?_, ?_, ?_, ?_, ?_⟩
  · unfold update_user_leave_balance
    rw [h]
  · unfold update_user_leave_balance
    rw [h]
  · exact getCat_setCat_same _ _ _
  · intro c hc
    exact getCat_setCat_ne _ _ _ _ hc
  · intro hd
    rw [getCat_setCat_same, max_eq_right hd]
    have hpos : 0 < (defaultBalanceRow uid now).getCat cat := by
      cases cat <;> norm_num [defaultBalanceRow, BalanceRecord.getCat]
    omega

/-- C10 witness: `adjust(U9, vacation, +5)` for a fresh user yields
vacation 5 — not 25 — and sick, personal, other at their defaults. -/
theorem C10_create_ignores_default_witness :
    get_user_leave_balance ([] : List BalanceRecord) "U9" = none ∧
    (∃ row, (update_user_leave_balance [] "U9" LeaveCat.vacation 5 "t0").1 =
        some row ∧
      (update_user_leave_balance [] "U9" LeaveCat.vacation 5 "t0").2 =
        [] ++ [row] ∧
      row.getCat LeaveCat.vacation = max 0 5 ∧
      (∀ c, c ≠ LeaveCat.vacation →
        row.getCat c = (defaultBalanceRow "U9" "t0").getCat c) ∧
      (0 ≤ (5 : Int) →
        row.getCat LeaveCat.vacation ≠
          (defaultBalanceRow "U9" "t0").getCat LeaveCat.vacation + 5)) :=
  ⟨rfl, C10_create_ignores_default_for_adjusted [] "U9" LeaveCat.vacation 5
    "t0" rfl⟩
